import Mathlib

/-!
# Verification of the holiday-booking-assistant trip-optimization engine

A shallow embedding of `server/app/trip_optimizer.py` and the source-aggregation
loops of `server/app/ai_travel_agent.py`, together with theorems checking the
specification's claims about them.

Modeling conventions:
* Calendar dates are ordinal day numbers (`Int`); `date + timedelta(days=k)` is `+ k`
  and `(d2 - d1).days` is `d2 - d1`.
* Python numbers are embedded exactly: the costs produced by `random.randint` are
  `Int`; scores and point values are rationals (`ℚ`).  `round(x, 1)` on floats is
  modeled as exact round-half-to-even on `ℚ`.
* The mock candidate generators (`generate_flight_options`, `generate_hotel_options`),
  which draw from `random`, are abstracted as function parameters: for one optimization
  call the destination and preferences are fixed, so a generator is a function from the
  travel window to a candidate list.  Every theorem quantifies over these functions, so
  it covers every candidate set the generators can produce.
* Dict fields that no code path of the engine ever reads (`arrive_time`,
  `booking_url`, URL/search-path tables) are not modeled.  The `depart_time` string
  `"HH:MM"` is represented by the hour component `depart_hour`, which is exactly what
  `calculate_score` extracts via `int(flight['depart_time'].split(':')[0])`.
-/

namespace HolidayBooking

/-- A flight option as built by `generate_flight_options` (trip_optimizer.py
lines 236-242): airline name, departure hour (the `"HH:MM"` string is read back only
through its hour component), and per-traveler cost (an `int` from `random.randint`). -/
structure Flight where
  airline : String
  depart_hour : Int
  cost : Int
deriving DecidableEq

/-- A hotel option as built by `generate_hotel_options` (trip_optimizer.py
lines 292-298): name, per-night cost (an `int`), distance from the points of
interest in km, and the family-friendly flag. -/
structure Hotel where
  name : String
  cost : Int
  distance_from_poi_km : ℚ
  family_friendly : Bool
deriving DecidableEq

/-- A travel window dict as appended by the enumeration loop (trip_optimizer.py
lines 35-39): `start_date`, `end_date = start_date + duration` and `duration`. -/
structure Window where
  start_date : Int
  end_date : Int
  duration : Int
deriving DecidableEq

/-- The preference set, after the HTTP layer (`main.py`, `TripPreferences`) has
filled every field: the three boolean flags read by `calculate_score`, the
`duration_range` pair `[min, max]`, and `num_kids` (never read by the optimizer). -/
structure Preferences where
  prefer_evening_flights : Bool
  family_friendly_hotel : Bool
  duration_range : Int × Int
  num_kids : Int
  prioritize_flight_time : Bool
  prioritize_hotel_quality : Bool
  prioritize_cost : Bool
deriving DecidableEq

/-- The recommendation enum of the loyalty evaluator (spec §3, `LoyaltyEvaluation`). -/
inductive Recommendation where
  | use_cash
  | use_points
  | either
deriving DecidableEq

/-- The dict returned by `evaluate_loyalty_value`: the callers in the sources read
the keys `recommendation`, `savings` (via `.get('savings', 0)`) and
`effective_value_per_point`. -/
structure LoyaltyEvaluation where
  recommendation : Recommendation
  savings : ℚ
  effective_value_per_point : Option ℚ
  program : String
deriving DecidableEq

/-- Modelled from the spec: the savings threshold of the loyalty policy, spec §4.4
"a positive threshold (policy constant, default > 0)".  The source file holding the
constant (`server/app/loyalty_optimizer.py`) is not part of the sources, so the
threshold is left as an explicit argument of `evaluate_loyalty_value`; the pipeline
instantiates it with this constant, read as "any strictly positive savings favors
points".  No claim about the trip pipeline inspects the loyalty fields, so the
particular value is never load-bearing there. -/
def loyalty_threshold : ℚ := 0

/-- Modelled from the spec: `evaluate_loyalty_value`, imported by
`trip_optimizer.py` and `main.py` from `server/app/loyalty_optimizer.py`, a file that
is missing from the sources.  Spec §4.4:
if `points_required > points_balance` the recommendation is USE_CASH with savings 0;
otherwise `savings = cash_price − points_price × point_value`, and the recommendation
is USE_POINTS when `savings` exceeds the positive threshold, USE_CASH when it is below
the threshold's negation, EITHER in between;
`effective_value_per_point = savings / points_required` when `points_required > 0`,
otherwise not applicable (`none`). -/
def evaluate_loyalty_value (threshold : ℚ) (cash_price : ℚ) (points_price : Int)
    (point_value : ℚ) (loyalty_program : String) (user_points_balance : Int) :
    LoyaltyEvaluation :=
  let rec_savings : Recommendation × ℚ :=
    if user_points_balance < points_price then
      (Recommendation.use_cash, 0)
    else
      let savings := cash_price - (points_price : ℚ) * point_value
      if threshold < savings then (Recommendation.use_points, savings)
      else if savings < -threshold then (Recommendation.use_cash, savings)
      else (Recommendation.either, savings)
  { recommendation := rec_savings.1
    savings := rec_savings.2
    effective_value_per_point :=
      if 0 < points_price then some (rec_savings.2 / (points_price : ℚ)) else none
    program := loyalty_program }

/-- One entry of `hotel_loyalty_options` as built by `generate_loyalty_analysis`
(trip_optimizer.py lines 92-100 and 112-120). -/
structure LoyaltyOption where
  program : String
  program_code : String
  points_needed : Int
  points_available : Int
  recommendation : Recommendation
  savings : ℚ
  effective_value : Option ℚ
deriving DecidableEq

/-- The dict returned by `generate_loyalty_analysis` (trip_optimizer.py
lines 127-132).  The static `user_balances` table appears inlined. -/
structure LoyaltyAnalysis where
  cash_price : Int
  hotel_loyalty_options : List LoyaltyOption
  best_recommendation : Option LoyaltyOption
deriving DecidableEq

/-- Python's `max(options, key=lambda x: x['savings'])` guarded by the emptiness
check (trip_optimizer.py lines 123-125): the first element of maximal savings. -/
def max_by_savings : List LoyaltyOption → Option LoyaltyOption
  | [] => none
  | x :: xs => some (xs.foldl (fun best y => if best.savings < y.savings then y else best) x)

/-- `generate_loyalty_analysis(total_cost, hotel_cost)` (trip_optimizer.py
lines 69-132): IHG needs `int(hotel_cost * 10)` points (balance 25000, point value
0.012), Marriott needs `int(hotel_cost * 8)` points (balance 15000, point value
0.015); a program is analyzed only when the needed points do not exceed the balance,
and the best recommendation is the option with the highest savings. -/
def generate_loyalty_analysis (total_cost hotel_cost : Int) : LoyaltyAnalysis :=
  let ihg_points_needed := hotel_cost * 10
  let marriott_points_needed := hotel_cost * 8
  let ihg_entries : List LoyaltyOption :=
    if ihg_points_needed ≤ 25000 then
      let ihg_analysis :=
        evaluate_loyalty_value loyalty_threshold (hotel_cost : ℚ) ihg_points_needed
          0.012 "ihg" 25000
      [{ program := "IHG Rewards", program_code := "ihg",
         points_needed := ihg_points_needed, points_available := 25000,
         recommendation := ihg_analysis.recommendation,
         savings := ihg_analysis.savings,
         effective_value := ihg_analysis.effective_value_per_point }]
    else []
  let marriott_entries : List LoyaltyOption :=
    if marriott_points_needed ≤ 15000 then
      let marriott_analysis :=
        evaluate_loyalty_value loyalty_threshold (hotel_cost : ℚ) marriott_points_needed
          0.015 "marriott" 15000
      [{ program := "Marriott Bonvoy", program_code := "marriott",
         points_needed := marriott_points_needed, points_available := 15000,
         recommendation := marriott_analysis.recommendation,
         savings := marriott_analysis.savings,
         effective_value := marriott_analysis.effective_value_per_point }]
    else []
  let hotel_loyalty_options := ihg_entries ++ marriott_entries
  { cash_price := total_cost
    hotel_loyalty_options := hotel_loyalty_options
    best_recommendation := max_by_savings hotel_loyalty_options }

/-- The trip-package dict returned by `create_trip_package` (trip_optimizer.py
lines 315-324). -/
structure TripPackage where
  flight : Flight
  hotel : Hotel
  total_cost : Int
  duration : Int
  start_date : Int
  end_date : Int
  num_travelers : Int
  loyalty_analysis : LoyaltyAnalysis
deriving DecidableEq

/-- A package after the scoring loop has attached `option['total_score']`
(trip_optimizer.py lines 60-63). -/
structure ScoredOption where
  pkg : TripPackage
  total_score : ℚ
deriving DecidableEq

/-- `create_trip_package(flight, hotel, window, num_travelers, preferences)`
(trip_optimizer.py lines 303-324).  The `preferences` argument is accepted but never
used by the source body. -/
def create_trip_package (flight : Flight) (hotel : Hotel) (window : Window)
    (num_travelers : Int) (preferences : Preferences) : TripPackage :=
  let duration := window.duration
  let flight_total := flight.cost * num_travelers
  let hotel_total := hotel.cost * duration * num_travelers
  let total_cost := flight_total + hotel_total
  { flight := flight
    hotel := hotel
    total_cost := total_cost
    duration := duration
    start_date := window.start_date
    end_date := window.end_date
    num_travelers := num_travelers
    loyalty_analysis := generate_loyalty_analysis total_cost hotel_total }

/-- The scoring-weight dispatch at the head of `calculate_score` (trip_optimizer.py
lines 330-351): defaults `(0.4, 0.3, 0.25, 0.05)` for (cost, flight, hotel, duration),
overridden by the `if prioritize_cost / elif prioritize_flight_time /
elif prioritize_hotel_quality` chain. -/
def scoring_weights (preferences : Preferences) : ℚ × ℚ × ℚ × ℚ :=
  if preferences.prioritize_cost then (0.6, 0.2, 0.15, 0.05)
  else if preferences.prioritize_flight_time then (0.25, 0.5, 0.2, 0.05)
  else if preferences.prioritize_hotel_quality then (0.25, 0.2, 0.5, 0.05)
  else (0.4, 0.3, 0.25, 0.05)

/-- `max_expected_cost = 2000` (trip_optimizer.py line 354). -/
def max_expected_cost : ℚ := 2000

/-- The cost sub-score (trip_optimizer.py line 355):
`max(0, 100 - (total_cost / max_expected_cost) * 100)`. -/
def cost_score (total_cost : Int) : ℚ :=
  max 0 (100 - ((total_cost : ℚ) / max_expected_cost) * 100)

/-- The flight-time sub-score (trip_optimizer.py lines 362-374), a function of the
`prefer_evening_flights` flag and the departure hour. -/
def flight_time_score (prefer_evening_flights : Bool) (depart_hour : Int) : ℚ :=
  if prefer_evening_flights then
    if 18 ≤ depart_hour ∧ depart_hour ≤ 22 then 100
    else if 6 ≤ depart_hour ∧ depart_hour ≤ 12 then 50
    else 30
  else
    if 8 ≤ depart_hour ∧ depart_hour ≤ 16 then 100
    else 50

/-- The hotel-quality sub-score (trip_optimizer.py lines 382-394): distance banding
plus the flat +20 family-friendly bonus. -/
def hotel_quality_score (family_friendly_requested : Bool) (hotel : Hotel) : ℚ :=
  let base : ℚ :=
    if hotel.distance_from_poi_km ≤ 1 then 100
    else if hotel.distance_from_poi_km ≤ 2 then 80
    else if hotel.distance_from_poi_km ≤ 3 then 60
    else 40
  if family_friendly_requested ∧ hotel.family_friendly then base + 20 else base

/-- The duration sub-score (trip_optimizer.py lines 400-408). -/
def duration_score (duration : Int) : ℚ :=
  if 5 ≤ duration then 100
  else if 4 ≤ duration then 80
  else if 3 ≤ duration then 60
  else 40

/-- Round to the nearest integer, halves to the even neighbor — the rounding mode of
Python's `round`, modeled exactly on `ℚ`. -/
def round_half_even (q : ℚ) : Int :=
  if q - ⌊q⌋ < 1/2 then ⌊q⌋
  else if 1/2 < q - ⌊q⌋ then ⌊q⌋ + 1
  else if ⌊q⌋ % 2 = 0 then ⌊q⌋ else ⌊q⌋ + 1

/-- Python's `round(x, 1)` (trip_optimizer.py line 412). -/
def py_round1 (q : ℚ) : ℚ := (round_half_even (10 * q) : ℚ) / 10

/-- `calculate_score(option, preferences)` (trip_optimizer.py lines 326-412):
the weighted sum of the four sub-scores, rounded to one decimal place. -/
def calculate_score (option : TripPackage) (preferences : Preferences) : ℚ :=
  let weights := scoring_weights preferences
  let score :=
    cost_score option.total_cost * weights.1
    + flight_time_score preferences.prefer_evening_flights option.flight.depart_hour
        * weights.2.1
    + hotel_quality_score preferences.family_friendly_hotel option.hotel * weights.2.2.1
    + duration_score option.duration * weights.2.2.2
  py_round1 score

/-- Python's `range(lo, hi + 1)`: the integers from `lo` to `hi` inclusive, ascending. -/
def int_range (lo hi : Int) : List Int :=
  (List.range (hi + 1 - lo).toNat).map (fun (i : Nat) => lo + (i : Int))

/-- The window-enumeration loop of `generate_trip_options` (trip_optimizer.py
lines 30-40): `current_date` starts at `start_date` and is incremented by one day
while `current_date + timedelta(days=min_duration) <= end_date`, so it ranges over the
integers in `[start_date, end_date - min_duration]`; for each, one window is appended
per `duration in range(min_duration, max_duration + 1)` satisfying
`current_date + timedelta(days=duration) <= end_date`. -/
def travel_windows (start_date end_date min_duration max_duration : Int) : List Window :=
  (int_range start_date (end_date - min_duration)).flatMap fun current_date =>
    (int_range min_duration max_duration).filterMap fun duration =>
      if current_date + duration ≤ end_date then
        some { start_date := current_date
               end_date := current_date + duration
               duration := duration }
      else none

/-- The comparison realized by `scored_options.sort(key=lambda x: x['total_score'],
reverse=True)` (trip_optimizer.py line 66): `a` may stay before `b` exactly when
`b`'s score does not exceed `a`'s.  CPython's sort is stable, so the sorted list is
the stable descending sort by `total_score`, which `List.insertionSort` with this
relation computes. -/
def score_ge (a b : ScoredOption) : Prop := b.total_score ≤ a.total_score

instance : DecidableRel score_ge :=
  fun a b => inferInstanceAs (Decidable (b.total_score ≤ a.total_score))

instance : IsTotal ScoredOption score_ge :=
  ⟨fun a b => le_total b.total_score a.total_score⟩

instance : IsTrans ScoredOption score_ge :=
  ⟨fun _ _ _ hab hbc => le_trans hbc hab⟩

/-- The ranking step of `generate_trip_options` (trip_optimizer.py lines 65-67):
stable sort by descending `total_score`, then the first three. -/
def rank_options (scored_options : List ScoredOption) : List ScoredOption :=
  (scored_options.insertionSort score_ge).take 3

/-- `generate_trip_options(trip_intent)` (trip_optimizer.py lines 6-67).
`flight_options` and `hotel_options` stand for the randomized mock generators
`generate_flight_options(destination, window, preferences)` and
`generate_hotel_options(destination, window, preferences)` with the call's fixed
destination and preferences (see the module docstring); `start_date`/`end_date` are
the parsed `date_range` and `num_travelers`/`preferences` come from the intent. -/
def generate_trip_options (flight_options : Window → List Flight)
    (hotel_options : Window → List Hotel) (start_date end_date : Int)
    (num_travelers : Int) (preferences : Preferences) : List ScoredOption :=
  let min_duration := preferences.duration_range.1
  let max_duration := min preferences.duration_range.2 (end_date - start_date)
  let windows := travel_windows start_date end_date min_duration max_duration
  let all_options := (windows.take 10).flatMap fun window =>
    (flight_options window).flatMap fun flight =>
      (hotel_options window).map fun hotel =>
        create_trip_package flight hotel window num_travelers preferences
  let scored_options := all_options.map fun option =>
    { pkg := option, total_score := calculate_score option preferences : ScoredOption }
  rank_options scored_options

/-- The errors of the spec's optimization entry-point contract (spec §6, §7).
Nothing in the sources defines or raises either error. -/
inductive OptimizeError where
  | invalidIntent
  | noCandidatesAvailable
deriving DecidableEq

/-- The optimization entry point with an explicit error channel.
`generate_trip_options` performs no input validation and its body contains no
`raise`; every execution path ends in the `return` of a (possibly empty) list, so the
embedding of its error behavior is constantly `Except.ok`. -/
def optimize (flight_options : Window → List Flight)
    (hotel_options : Window → List Hotel) (start_date end_date : Int)
    (num_travelers : Int) (preferences : Preferences) :
    Except OptimizeError (List ScoredOption) :=
  Except.ok
    (generate_trip_options flight_options hotel_options start_date end_date
      num_travelers preferences)

/-! ## The source aggregator (`server/app/ai_travel_agent.py`)

`search_flights_with_ai` (lines 61-95) builds one task per registered source, runs
them through `asyncio.gather(*tasks, return_exceptions=True)` and then walks the
results in task order — which is source-registration order, the insertion order of the
`search_urls` dict.  An element is either an exception object (skipped by the
`isinstance(result, Exception)` check), or the `None` that `_search_single_source`
(lines 171-204) returns after catching any error, timeout or non-200 response, or a
candidate list (skipped by `if result:` when empty, extended onto the output
otherwise).  `search_hotels_with_ai` (lines 97-131) is the identical loop for hotels.
-/

/-- One element of the `asyncio.gather` result list, per registered source. -/
inductive SourceResult (α : Type) where
  | exn
  | failed
  | ok (candidates : List α)
deriving DecidableEq

/-- The candidate list of a succeeding source, `none` for an excluded one. -/
def SourceResult.successes {α : Type} : SourceResult α → Option (List α)
  | SourceResult.ok candidates => some candidates
  | _ => none

/-- The result-combining loop of `search_flights_with_ai` (ai_travel_agent.py
lines 87-95): start from the empty `search_results`, skip exceptions and falsy
results (`None` and the empty list), extend with the rest, in registration order. -/
def combine_source_results {α : Type} (results : List (SourceResult α)) : List α :=
  results.foldl
    (fun search_results result =>
      match result with
      | SourceResult.exn => search_results
      | SourceResult.failed => search_results
      | SourceResult.ok r => if r.isEmpty then search_results else search_results ++ r)
    []

/-- The failure the spec expects from an aggregate call whose sources all fail
(spec §4.2).  Nothing in the sources defines or raises it. -/
inductive SearchFailure where
  | noCandidatesAvailable
deriving DecidableEq

/-- `search_flights_with_ai` with an explicit error channel: the function body has no
`raise` and always returns `search_results` (exceptions of the per-source tasks are
materialized as values by `return_exceptions=True` and every other error is caught
inside `_search_single_source`), so the embedding of its error behavior is constantly
`Except.ok`. -/
def search_flights_with_ai {α : Type} (results : List (SourceResult α)) :
    Except SearchFailure (List α) :=
  Except.ok (combine_source_results results)

/-! ## Spec-side definitions used for comparison

These follow the spec's words, to be compared against the definitions above. -/

/-- The spec's resolved priority (spec §9: "a lookup table keyed by a single resolved
priority enum"): the first prioritize flag in the fixed order cost, flight time,
hotel quality, else the default. -/
inductive Priority where
  | cost
  | flight_time
  | hotel_quality
  | balanced
deriving DecidableEq

/-- The priority resolved from a preference set, in the spec's fixed evaluation
order. -/
def resolved_priority (preferences : Preferences) : Priority :=
  if preferences.prioritize_cost then Priority.cost
  else if preferences.prioritize_flight_time then Priority.flight_time
  else if preferences.prioritize_hotel_quality then Priority.hotel_quality
  else Priority.balanced

/-- The spec's weight table (spec §4.5), keyed by the resolved priority:
(cost, flight, hotel, duration) weights. -/
def weight_table : Priority → ℚ × ℚ × ℚ × ℚ
  | Priority.cost => (0.60, 0.20, 0.15, 0.05)
  | Priority.flight_time => (0.25, 0.50, 0.20, 0.05)
  | Priority.hotel_quality => (0.25, 0.20, 0.50, 0.05)
  | Priority.balanced => (0.40, 0.30, 0.25, 0.05)

/-- The enumeration order the spec prescribes for windows: by `start_date`
ascending, then by `duration` ascending. -/
def window_lex (w1 w2 : Window) : Prop :=
  w1.start_date < w2.start_date ∨
    (w1.start_date = w2.start_date ∧ w1.duration < w2.duration)

/-! ## Concrete inputs used by witnesses and counterexamples -/

/-- A fully defaulted preference set (`TripPreferences` defaults of main.py) except
for a pinned `duration_range = [3, 3]`. -/
def base_prefs : Preferences :=
  { prefer_evening_flights := false
    family_friendly_hotel := false
    duration_range := (3, 3)
    num_kids := 0
    prioritize_flight_time := false
    prioritize_hotel_quality := false
    prioritize_cost := false }

/-- The single window of the September range `[day 0, day 3]` under
`duration_range = [3, 3]`. -/
def sample_window : Window := { start_date := 0, end_date := 3, duration := 3 }

def sample_flight : Flight :=
  { airline := "British Airways", depart_hour := 9, cost := 100 }

def sample_hotel : Hotel :=
  { name := "Hilton Paris", cost := 80, distance_from_poi_km := 5,
    family_friendly := false }

/-- A deterministic flight source returning one candidate for every window. -/
def one_flight_source : Window → List Flight := fun _ => [sample_flight]

/-- A deterministic hotel source returning one candidate for every window. -/
def one_hotel_source : Window → List Hotel := fun _ => [sample_hotel]

def sample_package : TripPackage :=
  create_trip_package sample_flight sample_hotel sample_window 1 base_prefs

def sample_scored : ScoredOption :=
  { pkg := sample_package, total_score := calculate_score sample_package base_prefs }

/-- An expensive flight generated before a cheaper one with the same departure hour:
both trip packages cost more than `max_expected_cost`, so they score identically. -/
def tie_flight_high : Flight :=
  { airline := "British Airways", depart_hour := 9, cost := 5000 }

def tie_flight_low : Flight :=
  { airline := "EasyJet", depart_hour := 9, cost := 4000 }

def tie_flights : Window → List Flight := fun _ => [tie_flight_high, tie_flight_low]

def tie_package_high : TripPackage :=
  create_trip_package tie_flight_high sample_hotel sample_window 1 base_prefs

def tie_package_low : TripPackage :=
  create_trip_package tie_flight_low sample_hotel sample_window 1 base_prefs

/-- Preferences reaching the maximal score: hotel quality prioritized and a
family-friendly hotel requested. -/
def high_score_prefs : Preferences :=
  { prefer_evening_flights := false
    family_friendly_hotel := true
    duration_range := (3, 5)
    num_kids := 2
    prioritize_flight_time := false
    prioritize_hotel_quality := true
    prioritize_cost := false }

/-- A trip option with a negative total cost: the cost sub-score
`max(0, 100 - total_cost/2000*100)` is unbounded above for negative costs, so the
final score escapes the claimed `[0, 110]` interval. -/
def negative_cost_package : TripPackage :=
  { flight := { airline := "British Airways", depart_hour := 9, cost := -22000 }
    hotel := { name := "Hilton Paris", cost := 0, distance_from_poi_km := 5,
               family_friendly := false }
    total_cost := -22000
    duration := 5
    start_date := 0
    end_date := 5
    num_travelers := 1
    loyalty_analysis :=
      { cash_price := 0, hotel_loyalty_options := [], best_recommendation := none } }

/-- A free, perfectly placed, family-friendly trip option: every sub-score is at its
maximum (the hotel sub-score at 120), so the final score exceeds 100. -/
def high_score_package : TripPackage :=
  { flight := { airline := "British Airways", depart_hour := 9, cost := 0 }
    hotel := { name := "Hilton Paris", cost := 0, distance_from_poi_km := 0.5,
               family_friendly := true }
    total_cost := 0
    duration := 5
    start_date := 0
    end_date := 5
    num_travelers := 1
    loyalty_analysis :=
      { cash_price := 0, hotel_loyalty_options := [], best_recommendation := none } }

/-! ## Helper lemmas: window enumeration -/

theorem mem_int_range {lo hi x : Int} : x ∈ int_range lo hi ↔ lo ≤ x ∧ x ≤ hi := by
  simp only [int_range, List.mem_map, List.mem_range]
  constructor
  · rintro ⟨i, hlt, rfl⟩
    omega
  · rintro ⟨h1, h2⟩
    exact ⟨(x - lo).toNat, by omega, by omega⟩

theorem pairwise_int_range (lo hi : Int) : (int_range lo hi).Pairwise (· < ·) := by
  unfold int_range
  rw [List.pairwise_map]
  exact (List.pairwise_lt_range _).imp (fun h => by omega)

theorem mem_travel_windows {s e minD maxD : Int} {w : Window} :
    w ∈ travel_windows s e minD maxD ↔
      s ≤ w.start_date ∧ w.start_date + minD ≤ e ∧ minD ≤ w.duration ∧
        w.duration ≤ maxD ∧ w.start_date + w.duration ≤ e ∧
        w.end_date = w.start_date + w.duration := by
  obtain ⟨ws, we, wd⟩ := w
  simp only [travel_windows, List.mem_flatMap, List.mem_filterMap, mem_int_range]
  constructor
  · rintro ⟨c, hc, d, hd, hsome⟩
    split at hsome
    · simp only [Option.some.injEq, Window.mk.injEq] at hsome
      obtain ⟨rfl, h2, rfl⟩ := hsome
      omega
    · exact absurd hsome (by simp)
  · rintro ⟨h1, h2, h3, h4, h5, h6⟩
    refine ⟨ws, ⟨h1, by omega⟩, wd, ⟨h3, h4⟩, ?_⟩
    rw [if_pos h5]
    simp [h6]

theorem travel_windows_nil {s e minD maxD : Int} (h : e - s < minD) :
    travel_windows s e minD maxD = [] := by
  unfold travel_windows int_range
  have hz : (e - minD + 1 - s).toNat = 0 := by omega
  rw [hz]
  rfl

theorem pairwise_travel_windows (s e minD maxD : Int) :
    (travel_windows s e minD maxD).Pairwise window_lex := by
  unfold travel_windows
  rw [List.pairwise_flatMap]
  constructor
  · intro c hc
    rw [List.pairwise_filterMap]
    refine (pairwise_int_range minD maxD).imp ?_
    intro d1 d2 hlt w1 hw1 w2 hw2
    split at hw1
    · split at hw2
      · simp only [Option.mem_def, Option.some.injEq] at hw1 hw2
        subst hw1
        subst hw2
        exact Or.inr ⟨rfl, hlt⟩
      · exact absurd hw2 (by simp)
    · exact absurd hw1 (by simp)
  · refine (pairwise_int_range s (e - minD)).imp ?_
    intro c1 c2 hlt w1 hw1 w2 hw2
    simp only [List.mem_filterMap] at hw1 hw2
    obtain ⟨d1, hd1, hs1⟩ := hw1
    obtain ⟨d2, hd2, hs2⟩ := hw2
    split at hs1
    · split at hs2
      · simp only [Option.some.injEq] at hs1 hs2
        subst hs1
        subst hs2
        exact Or.inl hlt
      · exact absurd hs2 (by simp)
    · exact absurd hs1 (by simp)

/-! ## Helper lemmas: pipeline membership -/

theorem mem_generate {fO : Window → List Flight} {hO : Window → List Hotel}
    {s e n : Int} {p : Preferences} {o : ScoredOption}
    (h : o ∈ generate_trip_options fO hO s e n p) :
    ∃ w ∈ (travel_windows s e p.duration_range.1
        (min p.duration_range.2 (e - s))).take 10,
      ∃ f ∈ fO w, ∃ ht ∈ hO w,
        o = { pkg := create_trip_package f ht w n p,
              total_score := calculate_score (create_trip_package f ht w n p) p } := by
  simp only [generate_trip_options, rank_options] at h
  have h2 := List.mem_of_mem_take h
  rw [List.mem_insertionSort] at h2
  simp only [List.mem_map, List.mem_flatMap] at h2
  obtain ⟨option, ⟨w, hw, f, hf, ht, hht, rfl⟩, rfl⟩ := h2
  exact ⟨w, hw, f, hf, ht, hht, rfl⟩

/-! ## Helper lemmas: rounding -/

theorem round_half_even_le {q : ℚ} {n : Int} (h : q ≤ (n : ℚ)) :
    round_half_even q ≤ n := by
  have hfl : ⌊q⌋ ≤ n := by
    have := Int.floor_le_floor h
    rwa [Int.floor_intCast] at this
  have hq : (⌊q⌋ : ℚ) ≤ q := Int.floor_le q
  unfold round_half_even
  split_ifs with h1 h2 h3
  · exact hfl
  · rcases lt_or_eq_of_le hfl with h4 | h4
    · omega
    · exfalso
      rw [h4] at h2
      have : (n : ℚ) ≤ q := by rw [← h4]; exact hq
      linarith
  · exact hfl
  · rcases lt_or_eq_of_le hfl with h4 | h4
    · omega
    · exfalso
      rw [h4] at h1
      push_neg at h1
      have : (n : ℚ) ≤ q := by rw [← h4]; exact hq
      linarith

theorem le_round_half_even {q : ℚ} {n : Int} (h : (n : ℚ) ≤ q) :
    n ≤ round_half_even q := by
  have hfl : n ≤ ⌊q⌋ := Int.le_floor.mpr h
  unfold round_half_even
  split_ifs <;> omega

theorem round_half_even_intCast (n : Int) : round_half_even (n : ℚ) = n := by
  unfold round_half_even
  rw [Int.floor_intCast]
  simp

theorem py_round1_le {q : ℚ} {n : Int} (h : q ≤ (n : ℚ)) : py_round1 q ≤ n := by
  unfold py_round1
  have h10 : 10 * q ≤ ((10 * n : Int) : ℚ) := by push_cast; linarith
  have := round_half_even_le h10
  have hc : ((round_half_even (10 * q) : Int) : ℚ) ≤ ((10 * n : Int) : ℚ) := by
    exact_mod_cast this
  push_cast at hc
  linarith

theorem le_py_round1 {q : ℚ} {n : Int} (h : (n : ℚ) ≤ q) : (n : ℚ) ≤ py_round1 q := by
  unfold py_round1
  have h10 : ((10 * n : Int) : ℚ) ≤ 10 * q := by push_cast; linarith
  have := le_round_half_even h10
  have hc : ((10 * n : Int) : ℚ) ≤ ((round_half_even (10 * q) : Int) : ℚ) := by
    exact_mod_cast this
  push_cast at hc
  linarith

theorem py_round1_intCast (n : Int) : py_round1 (n : ℚ) = n := by
  unfold py_round1
  have : (10 : ℚ) * (n : ℚ) = ((10 * n : Int) : ℚ) := by push_cast; ring
  rw [this, round_half_even_intCast]
  push_cast
  ring

/-! ## Helper lemmas: sub-score bounds -/

theorem cost_score_nonneg (t : Int) : 0 ≤ cost_score t := le_max_left 0 _

theorem cost_score_le_100 {t : Int} (h : 0 ≤ t) : cost_score t ≤ 100 := by
  unfold cost_score max_expected_cost
  rw [max_le_iff]
  constructor
  · norm_num
  · have : (0 : ℚ) ≤ (t : ℚ) / 2000 * 100 := by positivity
    linarith

theorem flight_time_score_bounds (b : Bool) (h : Int) :
    0 ≤ flight_time_score b h ∧ flight_time_score b h ≤ 100 := by
  unfold flight_time_score
  split_ifs <;> norm_num

theorem hotel_quality_score_bounds (b : Bool) (ht : Hotel) :
    0 ≤ hotel_quality_score b ht ∧ hotel_quality_score b ht ≤ 120 := by
  unfold hotel_quality_score
  split_ifs <;> norm_num

theorem duration_score_bounds (d : Int) :
    0 ≤ duration_score d ∧ duration_score d ≤ 100 := by
  unfold duration_score
  split_ifs <;> norm_num

theorem calculate_score_bounds {o : TripPackage} (p : Preferences)
    (h : 0 ≤ o.total_cost) :
    0 ≤ calculate_score o p ∧ calculate_score o p ≤ 110 := by
  have hc0 := cost_score_nonneg o.total_cost
  have hc1 := cost_score_le_100 (t := o.total_cost) h
  have hf := flight_time_score_bounds p.prefer_evening_flights o.flight.depart_hour
  have hh := hotel_quality_score_bounds p.family_friendly_hotel o.hotel
  have hd := duration_score_bounds o.duration
  unfold calculate_score
  constructor
  · have : ((0 : Int) : ℚ) ≤ py_round1 (cost_score o.total_cost * (scoring_weights p).1
        + flight_time_score p.prefer_evening_flights o.flight.depart_hour
            * (scoring_weights p).2.1
        + hotel_quality_score p.family_friendly_hotel o.hotel * (scoring_weights p).2.2.1
        + duration_score o.duration * (scoring_weights p).2.2.2) := by
      apply le_py_round1
      push_cast
      unfold scoring_weights
      split_ifs <;> simp only <;> nlinarith [hf.1, hh.1, hd.1, hc0]
    simpa using this
  · have : py_round1 (cost_score o.total_cost * (scoring_weights p).1
        + flight_time_score p.prefer_evening_flights o.flight.depart_hour
            * (scoring_weights p).2.1
        + hotel_quality_score p.family_friendly_hotel o.hotel * (scoring_weights p).2.2.1
        + duration_score o.duration * (scoring_weights p).2.2.2) ≤ ((110 : Int) : ℚ) := by
      apply py_round1_le
      push_cast
      unfold scoring_weights
      split_ifs <;> simp only <;> nlinarith [hf.2, hh.2, hd.2, hc1, hc0, hf.1, hh.1, hd.1]
    simpa using this

/-! ## Helper lemmas: source aggregation -/

theorem combine_aux {α : Type} (results : List (SourceResult α)) :
    ∀ acc : List α,
      List.foldl
        (fun search_results result =>
          match result with
          | SourceResult.exn => search_results
          | SourceResult.failed => search_results
          | SourceResult.ok r =>
              if r.isEmpty then search_results else search_results ++ r)
        acc results
      = acc ++ (results.filterMap SourceResult.successes).flatten := by
  induction results with
  | nil => intro acc; simp
  | cons r rs ih =>
    intro acc
    cases r with
    | exn => simpa [SourceResult.successes] using ih acc
    | failed => simpa [SourceResult.successes] using ih acc
    | ok xs =>
      rcases xs with _ | ⟨x, xs2⟩
      · simpa [SourceResult.successes] using ih acc
      · simp only [List.foldl_cons, List.filterMap_cons, SourceResult.successes,
          List.isEmpty_cons, List.flatten_cons]
        rw [if_neg (by simp)]
        rw [ih (acc ++ x :: xs2)]
        simp [List.append_assoc]

theorem combine_source_results_eq {α : Type} (results : List (SourceResult α)) :
    combine_source_results results
      = (results.filterMap SourceResult.successes).flatten := by
  unfold combine_source_results
  simpa using combine_aux results []

/-! ## Helper lemmas: concrete evaluations -/

theorem generate_single_eval :
    generate_trip_options one_flight_source one_hotel_source 0 3 1 base_prefs
      = [sample_scored] := rfl

theorem generate_tie_eval :
    generate_trip_options tie_flights one_hotel_source 0 3 1 base_prefs
      = rank_options
          [{ pkg := tie_package_high,
             total_score := calculate_score tie_package_high base_prefs },
           { pkg := tie_package_low,
             total_score := calculate_score tie_package_low base_prefs }] := rfl

theorem tie_score_high : calculate_score tie_package_high base_prefs = 43 := by
  have h43 : ((43 : Int) : ℚ) = 43 := by norm_num
  rw [← h43, ← py_round1_intCast 43]
  unfold calculate_score
  norm_num [scoring_weights, cost_score, flight_time_score, hotel_quality_score,
    duration_score, max_expected_cost, tie_package_high, create_trip_package,
    tie_flight_high, sample_hotel, sample_window, base_prefs]

theorem tie_score_low : calculate_score tie_package_low base_prefs = 43 := by
  have h43 : ((43 : Int) : ℚ) = 43 := by norm_num
  rw [← h43, ← py_round1_intCast 43]
  unfold calculate_score
  norm_num [scoring_weights, cost_score, flight_time_score, hotel_quality_score,
    duration_score, max_expected_cost, tie_package_low, create_trip_package,
    tie_flight_low, sample_hotel, sample_window, base_prefs]

/-! ## Claims -/

/-- C1: every trip package produced by `create_trip_package` — and hence every
package in the final ranked output of `generate_trip_options` — has
`total_cost = (flight.cost + hotel.cost_per_night × duration) × num_travelers`,
where the duration is the package's window duration in days. -/
theorem C1_total_cost_formula :
    (∀ (f : Flight) (ht : Hotel) (w : Window) (n : Int) (p : Preferences),
        (create_trip_package f ht w n p).total_cost
          = (f.cost + ht.cost * w.duration) * n)
    ∧ ∀ (fO : Window → List Flight) (hO : Window → List Hotel) (s e n : Int)
        (p : Preferences), ∀ o ∈ generate_trip_options fO hO s e n p,
          o.pkg.total_cost
            = (o.pkg.flight.cost + o.pkg.hotel.cost * o.pkg.duration)
                * o.pkg.num_travelers := by
  constructor
  · intro f ht w n p
    simp only [create_trip_package]
    ring
  · intro fO hO s e n p o ho
    obtain ⟨w, hw, f, hf, ht, hht, rfl⟩ := mem_generate ho
    simp only [create_trip_package]
    ring

/-- Witness for C1 at a concrete one-candidate pipeline run. -/
theorem C1_witness :
    sample_scored.pkg.total_cost
      = (sample_scored.pkg.flight.cost
          + sample_scored.pkg.hotel.cost * sample_scored.pkg.duration)
          * sample_scored.pkg.num_travelers :=
  C1_total_cost_formula.2 one_flight_source one_hotel_source 0 3 1 base_prefs
    sample_scored (by rw [generate_single_eval]; exact List.mem_singleton.mpr rfl)

/-- C2: for every valid intent (`start ≤ end`, `min_duration ≥ 1`, positive traveler
count), every package returned by `generate_trip_options` references a window with
`min_duration ≤ duration ≤ max_duration`, `start_date ≥ range.start` and
`end_date ≤ range.end`. -/
theorem C2_window_invariants (fO : Window → List Flight) (hO : Window → List Hotel)
    (s e n : Int) (p : Preferences)
    (hse : s ≤ e) (hmin : 1 ≤ p.duration_range.1) (hn : 0 < n) :
    ∀ o ∈ generate_trip_options fO hO s e n p,
      p.duration_range.1 ≤ o.pkg.duration ∧ o.pkg.duration ≤ p.duration_range.2 ∧
        s ≤ o.pkg.start_date ∧ o.pkg.end_date ≤ e := by
  intro o ho
  obtain ⟨w, hw, f, hf, ht, hht, rfl⟩ := mem_generate ho
  have hmemw := List.mem_of_mem_take hw
  rw [mem_travel_windows] at hmemw
  obtain ⟨h1, h2, h3, h4, h5, h6⟩ := hmemw
  simp only [create_trip_package]
  have h7 : w.duration ≤ p.duration_range.2 := le_trans h4 (min_le_left _ _)
  exact ⟨h3, h7, h1, by rw [h6]; exact h5⟩

/-- Witness for C2 at a concrete valid intent. -/
theorem C2_witness :
    (0 : Int) ≤ 3 ∧ (1 : Int) ≤ base_prefs.duration_range.1 ∧ (0 : Int) < 1 ∧
      (base_prefs.duration_range.1 ≤ sample_scored.pkg.duration ∧
        sample_scored.pkg.duration ≤ base_prefs.duration_range.2 ∧
        (0 : Int) ≤ sample_scored.pkg.start_date ∧ sample_scored.pkg.end_date ≤ 3) :=
  ⟨by norm_num, by norm_num [base_prefs], by norm_num,
    C2_window_invariants one_flight_source one_hotel_source 0 3 1 base_prefs
      (by norm_num) (by norm_num [base_prefs]) (by norm_num) sample_scored
      (by rw [generate_single_eval]; exact List.mem_singleton.mpr rfl)⟩

/-- C3: the window enumeration emits exactly the windows whose start runs from
`range.start` to the last date allowing `min_duration` more days, whose duration lies
in `[min_duration, min(max_duration, range.end − range.start)]` and which end inside
the range; it is ordered by start date ascending then duration ascending; it is empty
when `min_duration` exceeds the range length; and only its first 10 windows
contribute packages downstream. -/
theorem C3_window_enumeration (s e minD maxD : Int) :
    (∀ w : Window,
        w ∈ travel_windows s e minD (min maxD (e - s)) ↔
          (s ≤ w.start_date ∧ w.start_date + minD ≤ e ∧ minD ≤ w.duration ∧
            w.duration ≤ min maxD (e - s) ∧ w.start_date + w.duration ≤ e ∧
            w.end_date = w.start_date + w.duration))
    ∧ (travel_windows s e minD (min maxD (e - s))).Pairwise window_lex
    ∧ (e - s < minD → travel_windows s e minD (min maxD (e - s)) = [])
    ∧ ∀ (fO : Window → List Flight) (hO : Window → List Hotel) (n : Int)
        (p : Preferences), ∀ o ∈ generate_trip_options fO hO s e n p,
          ∃ w ∈ (travel_windows s e p.duration_range.1
              (min p.duration_range.2 (e - s))).take 10,
            o.pkg.start_date = w.start_date ∧ o.pkg.end_date = w.end_date ∧
              o.pkg.duration = w.duration := by
  refine ⟨fun w => mem_travel_windows, pairwise_travel_windows s e minD _,
    fun h => travel_windows_nil h, ?_⟩
  intro fO hO n p o ho
  obtain ⟨w, hw, f, hf, ht, hht, rfl⟩ := mem_generate ho
  exact ⟨w, hw, by simp [create_trip_package], by simp [create_trip_package],
    by simp [create_trip_package]⟩

/-- Witness for C3: the enumeration for an over-long minimum duration is empty, and a
concrete pipeline package traces back to one of the first 10 enumerated windows. -/
theorem C3_witness :
    travel_windows 0 3 4 (min 4 (3 - 0)) = []
    ∧ ∃ w ∈ (travel_windows 0 3 base_prefs.duration_range.1
          (min base_prefs.duration_range.2 (3 - 0))).take 10,
        sample_scored.pkg.start_date = w.start_date ∧
          sample_scored.pkg.end_date = w.end_date ∧
          sample_scored.pkg.duration = w.duration :=
  ⟨(C3_window_enumeration 0 3 4 4).2.2.1 (by norm_num),
    (C3_window_enumeration 0 3 0 0).2.2.2 one_flight_source one_hotel_source 1
      base_prefs sample_scored
      (by rw [generate_single_eval]; exact List.mem_singleton.mpr rfl)⟩

/-- C4 counterexample: two pipeline packages with equal `total_score` where the
more expensive one (total cost 5240) is ranked before the cheaper one (4240),
because the sort compares `total_score` only and, being stable, leaves ties in
generation order — there is no tie-break by lower `total_cost`. -/
theorem C4_counterexample :
    (generate_trip_options tie_flights one_hotel_source 0 3 1 base_prefs).map
        (fun o => (o.total_score, o.pkg.total_cost))
      = [(43, 5240), (43, 4240)] := by
  rw [generate_tie_eval, tie_score_high, tie_score_low]
  rw [rank_options]
  rw [show List.insertionSort score_ge
        [{ pkg := tie_package_high, total_score := 43 },
         { pkg := tie_package_low, total_score := 43 }]
      = [{ pkg := tie_package_high, total_score := 43 },
         { pkg := tie_package_low, total_score := 43 }] from by
    simp [List.insertionSort, List.orderedInsert, score_ge]]
  simp only [List.take, List.map]
  norm_num [tie_package_high, tie_package_low, create_trip_package, tie_flight_high,
    tie_flight_low, sample_hotel, sample_window]

/-- C4 (amended): the ranking returns the top 3 by descending `total_score`; it is
deterministic, and ties are resolved by the stability of the sort — packages with
equal scores keep their generation order; there is no tie-break by `total_cost` or by
window start date. -/
theorem C4_ranking_amended (l : List ScoredOption) :
    (rank_options l).Sorted score_ge
    ∧ (rank_options l).length = min 3 l.length
    ∧ (∀ o ∈ rank_options l, o ∈ l)
    ∧ (∀ a ∈ rank_options l, ∀ b ∈ (l.insertionSort score_ge).drop 3,
        b.total_score ≤ a.total_score)
    ∧ (∀ a b : ScoredOption, score_ge a b → [a, b].Sublist l →
        [a, b].Sublist (l.insertionSort score_ge)) := by
  refine ⟨?_, ?_, ?_, ?_, ?_⟩
  · exact (List.sorted_insertionSort score_ge l).sublist (List.take_sublist 3 _)
  · rw [rank_options, List.length_take, List.length_insertionSort]
  · intro o ho
    have := List.mem_of_mem_take ho
    rwa [List.mem_insertionSort] at this
  · intro a ha b hb
    exact (List.sorted_insertionSort score_ge l).rel_of_mem_take_of_mem_drop ha hb
  · intro a b hab hsub
    exact List.pair_sublist_insertionSort hab hsub

/-- Witness for C4 (amended) on a concrete two-element tie. -/
theorem C4_witness :
    ({ pkg := tie_package_high, total_score := 43 : ScoredOption }
        ∈ [({ pkg := tie_package_high, total_score := 43 : ScoredOption }),
           { pkg := tie_package_low, total_score := 43 }])
    ∧ [({ pkg := tie_package_high, total_score := 43 : ScoredOption }),
        { pkg := tie_package_low, total_score := 43 }].Sublist
        (List.insertionSort score_ge
          [{ pkg := tie_package_high, total_score := 43 },
           { pkg := tie_package_low, total_score := 43 }]) :=
  ⟨List.mem_cons_self _ _,
    (C4_ranking_amended
        [{ pkg := tie_package_high, total_score := 43 },
         { pkg := tie_package_low, total_score := 43 }]).2.2.2.2
      { pkg := tie_package_high, total_score := 43 }
      { pkg := tie_package_low, total_score := 43 }
      (le_refl (43 : ℚ)) (List.Sublist.refl _)⟩

/-- C5: the weight selection of `calculate_score` is the spec's mutually exclusive
dispatch: it equals a lookup in the weight table keyed by the single priority
resolved in the fixed order cost → flight time → hotel quality → default, so at
most one prioritize flag affects the weights. -/
theorem C5_weight_dispatch :
    (∀ p : Preferences, scoring_weights p = weight_table (resolved_priority p))
    ∧ weight_table Priority.cost = (0.60, 0.20, 0.15, 0.05)
    ∧ weight_table Priority.flight_time = (0.25, 0.50, 0.20, 0.05)
    ∧ weight_table Priority.hotel_quality = (0.25, 0.20, 0.50, 0.05)
    ∧ weight_table Priority.balanced = (0.40, 0.30, 0.25, 0.05) := by
  refine ⟨?_, rfl, rfl, rfl, rfl⟩
  intro p
  obtain ⟨pe, ff, dr, nk, pf, ph, pc⟩ := p
  cases pc <;> cases pf <;> cases ph <;>
    norm_num [scoring_weights, resolved_priority, weight_table]

/-- C6: the flight-time sub-score: with `prefer_evening_flights` set, hours 18–22
score 100, the morning band 6–12 scores 50 and every other hour (the source's
"afternoon" else-branch, including night hours) scores 30; without the flag, hours
8–16 score 100 and every other hour scores 50 — the two modes are asymmetric: hour 14
scores 30 in evening mode but 100 in day mode, and no hour ever scores 30 in day
mode. -/
theorem C6_flight_time_bands :
    (∀ h : Int, 18 ≤ h → h ≤ 22 → flight_time_score true h = 100)
    ∧ (∀ h : Int, 6 ≤ h → h ≤ 12 → flight_time_score true h = 50)
    ∧ (∀ h : Int, ¬(18 ≤ h ∧ h ≤ 22) → ¬(6 ≤ h ∧ h ≤ 12) →
        flight_time_score true h = 30)
    ∧ (∀ h : Int, 8 ≤ h → h ≤ 16 → flight_time_score false h = 100)
    ∧ (∀ h : Int, ¬(8 ≤ h ∧ h ≤ 16) → flight_time_score false h = 50)
    ∧ flight_time_score true 14 = 30 ∧ flight_time_score false 14 = 100
    ∧ ∀ h : Int, flight_time_score false h ≠ 30 := by
  refine ⟨?_, ?_, ?_, ?_, ?_, by norm_num [flight_time_score],
    by norm_num [flight_time_score], ?_⟩
  · intro h h1 h2
    unfold flight_time_score
    rw [if_pos rfl]
    split_ifs <;> first | rfl | (exfalso; omega)
  · intro h h1 h2
    unfold flight_time_score
    rw [if_pos rfl]
    split_ifs <;> first | rfl | (exfalso; omega)
  · intro h h1 h2
    unfold flight_time_score
    rw [if_pos rfl]
    split_ifs <;> first | rfl | (exfalso; omega)
  · intro h h1 h2
    unfold flight_time_score
    rw [if_neg Bool.false_ne_true]
    split_ifs <;> first | rfl | (exfalso; omega)
  · intro h h1
    unfold flight_time_score
    rw [if_neg Bool.false_ne_true]
    split_ifs <;> first | rfl | (exfalso; omega)
  · intro h
    unfold flight_time_score
    rw [if_neg Bool.false_ne_true]
    split_ifs <;> norm_num

/-- Witness for C6 at concrete hours in every band. -/
theorem C6_witness :
    flight_time_score true 20 = 100 ∧ flight_time_score true 8 = 50 ∧
      flight_time_score true 2 = 30 ∧ flight_time_score false 10 = 100 ∧
      flight_time_score false 20 = 50 :=
  ⟨C6_flight_time_bands.1 20 (by norm_num) (by norm_num),
    C6_flight_time_bands.2.1 8 (by norm_num) (by norm_num),
    C6_flight_time_bands.2.2.1 2 (by omega) (by omega),
    C6_flight_time_bands.2.2.2.1 10 (by norm_num) (by norm_num),
    C6_flight_time_bands.2.2.2.2.1 20 (by omega)⟩

/-- C7 counterexample: when every registered source fails, the aggregate call
returns the ordinary empty result — it does not fail with `NoCandidatesAvailable`. -/
theorem C7_counterexample :
    search_flights_with_ai (α := Flight)
        [SourceResult.exn, SourceResult.failed, SourceResult.exn]
      = Except.ok []
    ∧ search_flights_with_ai (α := Flight)
        [SourceResult.exn, SourceResult.failed, SourceResult.exn]
      ≠ Except.error SearchFailure.noCandidatesAvailable := by
  constructor
  · rfl
  · intro hcon
    exact absurd hcon (by simp [search_flights_with_ai])

/-- C7 (amended): a source that errors or times out is excluded from the aggregate
result and never fails the aggregate call; the aggregate result is the concatenation
of the succeeding sources' outputs in source-registration order with no cross-source
de-duplication; and when zero sources succeed the aggregate call still succeeds,
returning the empty list instead of surfacing `NoCandidatesAvailable`. -/
theorem C7_aggregation_amended :
    ∀ (α : Type) (results : List (SourceResult α)),
      search_flights_with_ai results
        = Except.ok ((results.filterMap SourceResult.successes).flatten) := by
  intro α results
  unfold search_flights_with_ai
  rw [combine_source_results_eq]

/-- C8 counterexample: a malformed intent with `start_date > end_date` yields the
ordinary value `Except.ok []` — not an `InvalidIntent` failure — and a malformed
intent with zero travelers is processed normally, returning one package. -/
theorem C8_counterexample :
    optimize one_flight_source one_hotel_source 5 2 1 base_prefs = Except.ok []
    ∧ optimize one_flight_source one_hotel_source 5 2 1 base_prefs
        ≠ Except.error OptimizeError.invalidIntent
    ∧ Except.map List.length (optimize one_flight_source one_hotel_source 0 3 0 base_prefs)
        = Except.ok 1 := by
  refine ⟨rfl, ?_, rfl⟩
  intro hcon
  exact absurd hcon (by simp [optimize])

/-- C8 (amended): the optimization entry point never raises: every call returns a
value; a malformed intent with `start > end` (and `min_duration ≥ 1`) produces the
empty list, and an intent under which every window yields zero packages produces the
empty list rather than a `NoCandidatesAvailable` failure. -/
theorem C8_entry_amended (fO : Window → List Flight) (hO : Window → List Hotel)
    (s e n : Int) (p : Preferences) :
    (optimize fO hO s e n p).isOk = true
    ∧ (e < s → 1 ≤ p.duration_range.1 → optimize fO hO s e n p = Except.ok [])
    ∧ ((∀ w, fO w = []) → optimize fO hO s e n p = Except.ok []) := by
  refine ⟨rfl, ?_, ?_⟩
  · intro h1 h2
    simp only [optimize, generate_trip_options, rank_options]
    rw [travel_windows_nil (show e - s < p.duration_range.1 by omega)]
    rfl
  · intro hempty
    unfold optimize generate_trip_options rank_options
    simp [hempty, List.flatMap]

/-- Witness for C8 (amended) at concrete malformed and candidate-free intents. -/
theorem C8_witness :
    optimize one_flight_source one_hotel_source 5 2 1 base_prefs = Except.ok []
    ∧ optimize (fun _ => []) one_hotel_source 0 9 2 base_prefs = Except.ok [] :=
  ⟨(C8_entry_amended one_flight_source one_hotel_source 5 2 1 base_prefs).2.1
      (by norm_num) (by norm_num [base_prefs]),
    (C8_entry_amended (fun _ => []) one_hotel_source 0 9 2 base_prefs).2.2
      (fun _ => rfl)⟩

/-- C9: the loyalty evaluator recommends USE_CASH with savings 0 whenever the points
required exceed the balance, regardless of the sign the savings computation would
have had; otherwise `savings = cash_price − points_required × point_value` decides
the recommendation — USE_POINTS above the threshold, USE_CASH below its negation,
EITHER in between. -/
theorem C9_loyalty_policy (threshold cash_price point_value : ℚ)
    (points_price user_points_balance : Int) (loyalty_program : String)
    (hthr : 0 < threshold) :
    (user_points_balance < points_price →
        (evaluate_loyalty_value threshold cash_price points_price point_value
            loyalty_program user_points_balance).recommendation
          = Recommendation.use_cash
        ∧ (evaluate_loyalty_value threshold cash_price points_price point_value
            loyalty_program user_points_balance).savings = 0)
    ∧ (points_price ≤ user_points_balance →
        (evaluate_loyalty_value threshold cash_price points_price point_value
            loyalty_program user_points_balance).savings
          = cash_price - (points_price : ℚ) * point_value
        ∧ (threshold < cash_price - (points_price : ℚ) * point_value →
            (evaluate_loyalty_value threshold cash_price points_price point_value
                loyalty_program user_points_balance).recommendation
              = Recommendation.use_points)
        ∧ (cash_price - (points_price : ℚ) * point_value < -threshold →
            (evaluate_loyalty_value threshold cash_price points_price point_value
                loyalty_program user_points_balance).recommendation
              = Recommendation.use_cash)
        ∧ (-threshold ≤ cash_price - (points_price : ℚ) * point_value →
            cash_price - (points_price : ℚ) * point_value ≤ threshold →
            (evaluate_loyalty_value threshold cash_price points_price point_value
                loyalty_program user_points_balance).recommendation
              = Recommendation.either)) := by
  constructor
  · intro hins
    simp [evaluate_loyalty_value, if_pos hins]
  · intro hle
    have hnot : ¬(user_points_balance < points_price) := not_lt.mpr hle
    refine ⟨?_, ?_, ?_, ?_⟩
    · simp only [evaluate_loyalty_value, if_neg hnot]
      split_ifs <;> rfl
    · intro hgt
      simp only [evaluate_loyalty_value, if_neg hnot]
      rw [if_pos hgt]
    · intro hlt
      have hngt : ¬(threshold < cash_price - (points_price : ℚ) * point_value) := by
        intro hcon
        linarith
      simp only [evaluate_loyalty_value, if_neg hnot]
      rw [if_neg hngt, if_pos hlt]
    · intro hge hle2
      have hngt : ¬(threshold < cash_price - (points_price : ℚ) * point_value) :=
        not_lt.mpr hle2
      have hnlt : ¬(cash_price - (points_price : ℚ) * point_value < -threshold) :=
        not_lt.mpr hge
      simp only [evaluate_loyalty_value, if_neg hnot]
      rw [if_neg hngt, if_neg hnlt]

/-- Witness for C9 at the spec's example scenario (cash 150, 12000 points at value
0.012, balance 15000, threshold 10): savings 6, recommendation EITHER; and an
insufficient-balance call (20000 points needed, balance 15000): USE_CASH, savings 0. -/
theorem C9_witness :
    ((evaluate_loyalty_value 10 150 12000 0.012 "ihg" 15000).recommendation
        = Recommendation.either
      ∧ (evaluate_loyalty_value 10 150 12000 0.012 "ihg" 15000).savings
        = 150 - (12000 : ℚ) * 0.012)
    ∧ ((evaluate_loyalty_value 10 150 20000 0.012 "ihg" 15000).recommendation
        = Recommendation.use_cash
      ∧ (evaluate_loyalty_value 10 150 20000 0.012 "ihg" 15000).savings = 0) := by
  constructor
  · constructor
    · exact (C9_loyalty_policy 10 150 0.012 12000 15000 "ihg" (by norm_num)).2
        (by norm_num) |>.2.2.2 (by norm_num) (by norm_num)
    · exact ((C9_loyalty_policy 10 150 0.012 12000 15000 "ihg" (by norm_num)).2
        (by norm_num)).1
  · exact (C9_loyalty_policy 10 150 0.012 20000 15000 "ihg" (by norm_num)).1
      (by norm_num)

/-- C10 counterexample: an option with `total_cost = -22000` scores 525, outside
the claimed interval `[0, 110]` — the cost sub-score is only clamped from below, so
the claimed bound fails for options with negative total cost. -/
theorem C10_counterexample :
    110 < calculate_score negative_cost_package base_prefs := by
  have h525 : calculate_score negative_cost_package base_prefs = 525 := by
    have hcast : ((525 : Int) : ℚ) = 525 := by norm_num
    rw [← hcast, ← py_round1_intCast 525]
    unfold calculate_score
    norm_num [scoring_weights, cost_score, flight_time_score, hotel_quality_score,
      duration_score, max_expected_cost, negative_cost_package, base_prefs]
  rw [h525]
  norm_num

/-- C10 (amended): for every trip option with a non-negative total cost and every
preference set, `calculate_score` is bounded in `[0, 110]`; every sub-score is
non-negative, the hotel sub-score reaches at most 120 (100 band plus the uncapped
+20 family bonus), and the final score can exceed 100 (a concrete option scores
110). -/
theorem C10_score_bounds :
    (∀ (o : TripPackage) (p : Preferences), 0 ≤ o.total_cost →
        0 ≤ calculate_score o p ∧ calculate_score o p ≤ 110)
    ∧ (∀ t : Int, 0 ≤ cost_score t)
    ∧ (∀ (b : Bool) (h : Int), 0 ≤ flight_time_score b h)
    ∧ (∀ (b : Bool) (ht : Hotel),
        0 ≤ hotel_quality_score b ht ∧ hotel_quality_score b ht ≤ 120)
    ∧ (∀ d : Int, 0 ≤ duration_score d)
    ∧ 100 < calculate_score high_score_package high_score_prefs := by
  refine ⟨fun o p h => calculate_score_bounds p h, cost_score_nonneg,
    fun b h => (flight_time_score_bounds b h).1, hotel_quality_score_bounds,
    fun d => (duration_score_bounds d).1, ?_⟩
  have h110 : calculate_score high_score_package high_score_prefs = 110 := by
    have hcast : ((110 : Int) : ℚ) = 110 := by norm_num
    rw [← hcast, ← py_round1_intCast 110]
    unfold calculate_score
    norm_num [scoring_weights, cost_score, flight_time_score, hotel_quality_score,
      duration_score, max_expected_cost, high_score_package, high_score_prefs]
  rw [h110]
  norm_num

/-- Witness for C10 at the concrete maximal-score option. -/
theorem C10_witness :
    0 ≤ calculate_score high_score_package high_score_prefs
    ∧ calculate_score high_score_package high_score_prefs ≤ 110 :=
  C10_score_bounds.1 high_score_package high_score_prefs (by norm_num [high_score_package])

end HolidayBooking
